import Mathlib

/-!
Verification development for the semantAH index builder
(`tools/semantah/build_index.py`).  The Python source is shallowly
embedded: pure data flow becomes Lean functions, the ambient effects
(one HTTP request to the embedding provider, filesystem writes inside
the artifacts directory) become explicit parameters and an explicit
filesystem record threaded through the functions.  Python floats are
carried through the pipeline untouched (no arithmetic is performed on
them), so they are modelled by `Rat`; machine-level float formatting
plays no role in any statement proved here.
-/

/-- A JSON value, as produced by `json.dumps` / consumed by `json.loads`.
The textual layer of the Python `json` library (pretty-printing,
`ensure_ascii=False`, re-parsing) is modelled at the level of this AST:
writing a file stores the AST, re-reading it yields the same AST. -/
inductive Json where
  | null : Json
  | str : String → Json
  | num : Rat → Json
  | arr : List Json → Json
  | obj : List (String × Json) → Json
deriving Repr

/-- Field access on a JSON object, as `dict` key lookup after `json.loads`. -/
def Json.getField (j : Json) (k : String) : Option Json :=
  match j with
  | .obj fields => fields.lookup k
  | _ => none

/-- Chunk metadata assembled in step 1 of `write_embeddings`
(the dict `{"chunk_id": …, "source": …, "namespace": …, "text": …}`). -/
structure ChunkMeta where
  chunk_id : String
  source : String
  nspace : String
  text : String
deriving Repr, DecidableEq

/-- One manifest record: the chunk metadata plus its `embedding`
(`{**meta, "embedding": emb}` in step 3 of `write_embeddings`). -/
structure ManifestRecord where
  chunk_id : String
  source : String
  nspace : String
  text : String
  embedding : List Rat
deriving Repr, DecidableEq

/-- Merge one aligned (metadata, embedding) pair into a manifest record. -/
def mkRecord (m : ChunkMeta) (e : List Rat) : ManifestRecord :=
  ⟨m.chunk_id, m.source, m.nspace, m.text, e⟩

/-- Step 3 of `write_embeddings`: `zip(chunk_meta, embeddings, strict=False)`
merged into manifest records (Python `zip` truncates at the shorter list,
exactly as `List.zipWith`). -/
def mergeRecords (metas : List ChunkMeta) (embs : List (List Rat)) :
    List ManifestRecord :=
  List.zipWith mkRecord metas embs

/-- JSON serialization of one manifest record, with the dict key order the
source constructs. -/
def ManifestRecord.toJson (r : ManifestRecord) : Json :=
  .obj [(("chunk_id"), .str r.chunk_id),
        (("source"), .str r.source),
        (("namespace"), .str r.nspace),
        (("text"), .str r.text),
        (("embedding"), .arr (r.embedding.map Json.num))]

/-- The JSON value `json.dumps` serializes into `chunks.json`:
the full ordered array of manifest records. -/
def manifestJson (rs : List ManifestRecord) : Json :=
  .arr (rs.map ManifestRecord.toJson)

/-- Read a JSON value as a string, failing otherwise. -/
def asStr : Option Json → Option String
  | some (.str s) => some s
  | _ => none

/-- Decode a JSON array of numbers into a float list. -/
def decodeNums : List Json → Option (List Rat)
  | [] => some []
  | .num q :: js => (decodeNums js).map (fun qs => q :: qs)
  | _ => none

/-- Decode the `embedding` field. -/
def decodeEmb : Json → Option (List Rat)
  | .arr js => decodeNums js
  | _ => none

/-- Parse one manifest record back from its JSON object, reading each
field by key, as a consumer of `chunks.json` would. -/
def decodeRecord (j : Json) : Option ManifestRecord :=
  match asStr (j.getField ("chunk_id")), asStr (j.getField ("source")),
      asStr (j.getField ("namespace")), asStr (j.getField ("text")),
      j.getField ("embedding") with
  | some c, some s, some n, some t, some e =>
    match decodeEmb e with
    | some emb => some ⟨c, s, n, t, emb⟩
    | none => none
  | _, _, _, _, _ => none

/-- Decode a list of manifest records, failing if any element fails. -/
def decodeRecords : List Json → Option (List ManifestRecord)
  | [] => some []
  | j :: js =>
    match decodeRecord j, decodeRecords js with
    | some r, some rs => some (r :: rs)
    | _, _ => none

/-- Parse the whole manifest file back (`json.loads` of `chunks.json`
followed by field extraction). -/
def parseManifest : Json → Option (List ManifestRecord)
  | .arr js => decodeRecords js
  | _ => none

/-! ## The embedding client (`OllamaEmbedder`) -/

/-- The `embeddings` field of the provider response
(`result.get("embeddings")` after `json.loads`): absent, present but not
a list, or a list of vectors.  The source checks only
`isinstance(embeddings, list)`; the inner elements are passed through
unvalidated, which the model reflects by carrying them as vectors. -/
inductive EmbeddingsField where
  | missing : EmbeddingsField
  | notList : EmbeddingsField
  | isList : List (List Rat) → EmbeddingsField
deriving Repr, DecidableEq

/-- The parsed provider response (the part the client inspects). -/
structure ProviderResponse where
  embeddings : EmbeddingsField
deriving Repr, DecidableEq

/-- Outcome of the single `urllib.request.urlopen` + `resp.read` +
`json.loads` interaction with the provider, had a request been issued:
one of the transport/decoding exceptions the source catches, or a
successfully decoded response. -/
inductive ProviderOutcome where
  | httpError : String → ProviderOutcome
  | urlError : String → ProviderOutcome
  | timeoutError : ProviderOutcome
  | jsonDecodeError : String → ProviderOutcome
  | success : ProviderResponse → ProviderOutcome
deriving Repr, DecidableEq

/-- The cause chained into the `RuntimeError` the client raises: one of
the caught exceptions.  `httpError`/`urlError`/`timeoutError`/
`jsonDecodeError` come from the transport/decoding layer; the two
`ValueError`s are raised by the client validation itself. -/
inductive EmbedCause where
  | httpError : String → EmbedCause
  | urlError : String → EmbedCause
  | timeoutError : EmbedCause
  | jsonDecodeError : String → EmbedCause
  | formatInvalid : EmbedCause
  | countMismatch : Nat → Nat → EmbedCause
deriving Repr, DecidableEq

/-- Is this cause one of the transport/decoding failures
(the spec's ProviderError channel)? -/
def EmbedCause.isProviderFailure : EmbedCause → Bool
  | .httpError _ => true
  | .urlError _ => true
  | .timeoutError => true
  | .jsonDecodeError _ => true
  | .formatInvalid => false
  | .countMismatch _ _ => false

/-- The `RuntimeError` raised by `OllamaEmbedder.embed`: its message
names the provider URL and model, and it chains the caught cause. -/
structure EmbedError where
  url : String
  model : String
  cause : EmbedCause
deriving Repr, DecidableEq

/-- The embedding client configuration (`OllamaEmbedder.__init__`):
provider URL, model name and the `--allow-empty-embeddings` degrade
flag. -/
structure OllamaEmbedder where
  url : String
  model : String
  allow_empty : Bool
deriving Repr, DecidableEq

/-- `url.rstrip("/")` performed by `OllamaEmbedder.__init__`. -/
def rstripSlash (s : String) : String :=
  String.mk ((s.data.reverse.dropWhile (fun c => c = '/')).reverse)

/-- Construct the client as `__init__` does. -/
def OllamaEmbedder.make (url model : String) (allow_empty : Bool) :
    OllamaEmbedder :=
  ⟨rstripSlash url, model, allow_empty⟩

/-- Result of one `embed` call: the returned value or raised error,
the number of provider requests issued, and whether a degrade-mode
warning was printed. -/
structure EmbedResult where
  result : Except EmbedError (List (List Rat))
  requests : Nat
  warned : Bool
deriving Repr

/-- Validation inside the `try` block: the response must carry a list
`embeddings` field whose length equals the input length; transport
outcomes surface as their exceptions. -/
def rawEmbed (outcome : ProviderOutcome) (texts : List String) :
    Except EmbedCause (List (List Rat)) :=
  match outcome with
  | .httpError d => .error (.httpError d)
  | .urlError d => .error (.urlError d)
  | .timeoutError => .error .timeoutError
  | .jsonDecodeError d => .error (.jsonDecodeError d)
  | .success resp =>
    match resp.embeddings with
    | .missing => .error .formatInvalid
    | .notList => .error .formatInvalid
    | .isList embs =>
      if embs.length ≠ texts.length then
        .error (.countMismatch embs.length texts.length)
      else
        .ok embs

/-- `OllamaEmbedder.embed`: empty input short-circuits before the request
is built; otherwise one batched request is issued and the outcome is
validated; any caught exception is wrapped into a `RuntimeError` naming
URL and model, unless `allow_empty` degrades it to a warning plus one
empty vector per input text. -/
def OllamaEmbedder.embed (e : OllamaEmbedder) (outcome : ProviderOutcome)
    (texts : List String) : EmbedResult :=
  if texts.isEmpty then
    ⟨.ok [], 0, false⟩
  else
    match rawEmbed outcome texts with
    | .ok embs => ⟨.ok embs, 1, false⟩
    | .error c =>
      if e.allow_empty then
        ⟨.ok (texts.map (fun _ => [])), 1, true⟩
      else
        ⟨.error ⟨e.url, e.model, c⟩, 1, false⟩

/-! ## Chunk reading -/

/-- One input chunk path together with what `Path.read_text` yields for
it in the ambient filesystem: the decoded UTF-8 content, or the
description of the `OSError`/`UnicodeDecodeError` raised. -/
structure ChunkInput where
  path : String
  readResult : Except String String
deriving Repr

/-- Did this chunk read successfully? -/
def ChunkInput.readOk (c : ChunkInput) : Bool :=
  match c.readResult with
  | .ok _ => true
  | .error _ => false

/-- Split a character list at every occurrence of a separator. -/
def splitOnChar (sep : Char) : List Char → List (List Char)
  | [] => [[]]
  | c :: cs =>
    match splitOnChar sep cs with
    | [] => [[]]
    | seg :: rest =>
      if c = sep then [] :: seg :: rest else (c :: seg) :: rest

/-- The final path component (`PurePath.name`). -/
def finalComponent (p : String) : String :=
  String.mk (((((splitOnChar '/' p.data)).filter
    (fun s => s ≠ [])).getLast?).getD [])

/-- Index of the last dot of the name, if any. -/
def lastDotIdx (cs : List Char) : Option Nat :=
  ((List.range cs.length).filter (fun i => cs.getD i ' ' = '.')).getLast?

/-- The name without its suffix (`PurePath.stem`): everything before the
last dot, provided that dot is neither the first nor the last
character. -/
def stemOfName (name : String) : String :=
  let cs := name.data
  match lastDotIdx cs with
  | some i => if 0 < i ∧ i < cs.length - 1 then String.mk (cs.take i) else name
  | none => name

/-- `Path(p).stem`. -/
def pathStem (p : String) : String := stemOfName (finalComponent p)

/-- Step 1 of `write_embeddings` for one path: on a successful read,
the chunk metadata dict; on `OSError`/`UnicodeDecodeError`, the path is
reported and skipped. -/
def readMeta (nspace : String) (c : ChunkInput) : Option ChunkMeta :=
  match c.readResult with
  | .ok content => some ⟨pathStem c.path, c.path, nspace, content⟩
  | .error _ => none

/-- Step 1 of `write_embeddings` over the whole path list: the metadata
of the successfully read chunks, in input order (`gewebe.parent.name`
supplies the namespace). -/
def chunkMetas (nspace : String) (chunks : List ChunkInput) :
    List ChunkMeta :=
  chunks.filterMap (readMeta nspace)

/-! ## The index writer and report -/

/-- The files of the artifacts directory (`gewebe`) that
`write_embeddings`/`write_report` touch.  `parquet` is
`embeddings.parquet` (as the record table `pa.Table.from_pylist`
persists), `hint` the existence of
`embeddings.parquet.MISSING_PYARROW.txt` (its content is the fixed
two-line German hint text), `manifest` the JSON value stored in
`chunks.json`, and `report` the lines of
`reports/index_report.md`. -/
structure FS where
  parquet : Option (List ManifestRecord)
  hint : Bool
  manifest : Option Json
  report : Option (List String)
deriving Repr

/-- An artifacts directory before any file was written. -/
def emptyFS : FS := ⟨none, false, none, none⟩

/-- Statistics returned by `write_embeddings`
(`{"passed": …, "read": …, "embedded": …}`). -/
structure Stats where
  passed : Nat
  read : Nat
  embedded : Nat
deriving Repr, DecidableEq

/-- A fatal error of the run: the `RuntimeError` propagated out of
`embed`, or the data-integrity `RuntimeError` of step 3 — whose message
names both counts, here carried as the constructor arguments. -/
inductive RunError where
  | embedError : EmbedError → RunError
  | dataIntegrity : Nat → Nat → RunError
deriving Repr, DecidableEq

/-- The message of a run error (the `RuntimeError` text). -/
def RunError.message : RunError → String
  | .embedError e =>
    ("[semantah] Fehler beim Aufruf von Ollama (") ++ e.url ++
      (", Modell: ") ++ e.model ++ (")")
  | .dataIntegrity c e =>
    ("Datenintegritätsfehler: Chunks (") ++ toString c ++
      (") != Embeddings (") ++ toString e ++ (")")

/-- Steps 3–5 of `write_embeddings`, as a function of the metadata and
embeddings assembled by steps 1–2: the integrity check aborts before any
file is written; otherwise the records are merged, the parquet table is
written when pyarrow imports (removing a leftover hint file) or else the
hint file is written and a stale parquet file deleted, and finally the
manifest is written and the statistics returned. -/
def mergeAndWrite (fs : FS) (passed : Nat) (metas : List ChunkMeta)
    (embeddings : List (List Rat)) (pyarrowAvailable : Bool) :
    FS × Except RunError Stats :=
  if metas.length ≠ embeddings.length then
    (fs, .error (.dataIntegrity metas.length embeddings.length))
  else
    let manifestData := mergeRecords metas embeddings
    let fs1 :=
      if pyarrowAvailable then
        { fs with parquet := some manifestData, hint := false }
      else
        { fs with hint := true, parquet := none }
    let fs2 := { fs1 with manifest := some (manifestJson manifestData) }
    (fs2, .ok ⟨passed, metas.length, manifestData.length⟩)

/-- `write_embeddings`: read the chunks, embed the texts, then merge and
write.  A raised `RuntimeError` leaves the filesystem as it was. -/
def write_embeddings (fs : FS) (nspace : String) (chunks : List ChunkInput)
    (embedder : OllamaEmbedder) (outcome : ProviderOutcome)
    (pyarrowAvailable : Bool) : FS × Except RunError Stats :=
  let metas := chunkMetas nspace chunks
  let texts := metas.map (fun m => m.text)
  let er := embedder.embed outcome texts
  match er.result with
  | .error e => (fs, .error (.embedError e))
  | .ok embeddings =>
    mergeAndWrite fs chunks.length metas embeddings pyarrowAvailable

/-- `write_report`: the fixed-format report lines, with the parquet line
depending on whether `embeddings.parquet` exists on disk. -/
def write_report (fs : FS) (gewebe : String) (stats : Stats) : FS :=
  let baseLines : List String :=
    [("# semantAH Index Report"),
     (""),
     ("- Chunks übergeben: ") ++ toString stats.passed,
     ("- Chunks gelesen: ") ++ toString stats.read,
     ("- Embeddings erzeugt: ") ++ toString stats.embedded]
  let parquetLine :=
    if fs.parquet.isSome then
      ("Parquet-Artefakt: ") ++ gewebe ++ ("/embeddings.parquet")
    else
      ("Parquet-Artefakt: (Übersprungen oder Fehler)")
  let manifestLine := ("Manifest: ") ++ gewebe ++ ("/chunks.json")
  { fs with report := some (baseLines ++ [parquetLine, manifestLine]) }

/-- The run sequence of `main` after directory setup: `write_embeddings`
then `write_report`; a raised error terminates the run with nonzero
status and no report. -/
def run (fs : FS) (gewebe nspace : String) (chunks : List ChunkInput)
    (embedder : OllamaEmbedder) (outcome : ProviderOutcome)
    (pyarrowAvailable : Bool) : FS × Except RunError Stats :=
  match write_embeddings fs nspace chunks embedder outcome pyarrowAvailable with
  | (fs1, .ok stats) => (write_report fs1 gewebe stats, .ok stats)
  | (fs1, .error e) => (fs1, .error e)

/-! ## Helper lemmas -/

/-- A value returned (not raised) by the validation inside the `try`
block has passed the count check. -/
theorem rawEmbed_ok_length (outcome : ProviderOutcome) (texts : List String)
    (embs : List (List Rat)) (h : rawEmbed outcome texts = .ok embs) :
    embs.length = texts.length := by
  unfold rawEmbed at h
  split at h <;> try simp_all
  split at h <;> try simp_all
  split at h <;> simp_all

/-- Any successful `embed` call returns one vector per input text:
the validated provider vectors, or (degrade mode) one empty vector per
text. -/
theorem embed_ok_length (e : OllamaEmbedder) (outcome : ProviderOutcome)
    (texts : List String) (embs : List (List Rat))
    (h : (e.embed outcome texts).result = .ok embs) :
    embs.length = texts.length := by
  unfold OllamaEmbedder.embed at h
  by_cases he : texts.isEmpty
  · rw [if_pos he] at h
    simp at h
    subst h
    simp [List.isEmpty_iff.mp he]
  · rw [if_neg he] at h
    cases hr : rawEmbed outcome texts with
    | ok v =>
      rw [hr] at h
      simp at h
      subst h
      exact rawEmbed_ok_length outcome texts v hr
    | error c =>
      rw [hr] at h
      by_cases ha : e.allow_empty
      · simp [ha] at h
        subst h
        simp
      · simp [ha] at h

/-- The chunk reader keeps exactly the successfully read paths. -/
theorem chunkMetas_length (nspace : String) (chunks : List ChunkInput) :
    (chunkMetas nspace chunks).length
      = (chunks.filter ChunkInput.readOk).length := by
  induction chunks with
  | nil => rfl
  | cons c cs ih =>
    cases hc : c.readResult with
    | ok v =>
      simp [chunkMetas, List.filterMap_cons, readMeta, hc, List.filter_cons,
        ChunkInput.readOk] at *
      exact ih
    | error d =>
      simp [chunkMetas, List.filterMap_cons, readMeta, hc, List.filter_cons,
        ChunkInput.readOk] at *
      exact ih

/-- The sources recorded in the metadata are the successfully read
paths, in input order. -/
theorem chunkMetas_sources (nspace : String) (chunks : List ChunkInput) :
    (chunkMetas nspace chunks).map (fun m => m.source)
      = (chunks.filter ChunkInput.readOk).map (fun c => c.path) := by
  induction chunks with
  | nil => rfl
  | cons c cs ih =>
    cases hc : c.readResult with
    | ok v =>
      simp [chunkMetas, List.filterMap_cons, readMeta, hc, List.filter_cons,
        ChunkInput.readOk] at *
      exact ih
    | error d =>
      simp [chunkMetas, List.filterMap_cons, readMeta, hc, List.filter_cons,
        ChunkInput.readOk] at *
      exact ih

/-- The chunk reader never produces more records than paths passed. -/
theorem chunkMetas_length_le (nspace : String) (chunks : List ChunkInput) :
    (chunkMetas nspace chunks).length ≤ chunks.length :=
  List.length_filterMap_le (readMeta nspace) chunks

/-- Decoding the encoding of a float list recovers it. -/
theorem decodeNums_map (qs : List Rat) :
    decodeNums (qs.map Json.num) = some qs := by
  induction qs with
  | nil => rfl
  | cons q qs ih => simp [decodeNums, ih]

/-- Decoding the encoding of one manifest record recovers it. -/
theorem decodeRecord_toJson (r : ManifestRecord) :
    decodeRecord r.toJson = some r := by
  show (match decodeEmb (Json.arr (r.embedding.map Json.num)) with
    | some emb =>
      some ({ chunk_id := r.chunk_id, source := r.source, nspace := r.nspace,
              text := r.text, embedding := emb } : ManifestRecord)
    | none => none) = some r
  simp [decodeEmb, decodeNums_map]

/-- Decoding the encodings of a record list recovers the list. -/
theorem decodeRecords_map (rs : List ManifestRecord) :
    decodeRecords (rs.map ManifestRecord.toJson) = some rs := by
  induction rs with
  | nil => rfl
  | cons r rs ih => simp [decodeRecords, decodeRecord_toJson, ih]

/-- Parsing the written manifest recovers the full record list. -/
theorem parseManifest_manifestJson (rs : List ManifestRecord) :
    parseManifest (manifestJson rs) = some rs := by
  simp [parseManifest, manifestJson, decodeRecords_map]

/-- Merging aligned lists keeps each metadata field and the embeddings,
in order. -/
theorem mergeRecords_fields (metas : List ChunkMeta) (embs : List (List Rat))
    (h : metas.length = embs.length) :
    (mergeRecords metas embs).map (fun r => r.chunk_id)
        = metas.map (fun m => m.chunk_id)
      ∧ (mergeRecords metas embs).map (fun r => r.source)
        = metas.map (fun m => m.source)
      ∧ (mergeRecords metas embs).map (fun r => r.text)
        = metas.map (fun m => m.text)
      ∧ (mergeRecords metas embs).map (fun r => r.embedding) = embs := by
  induction metas generalizing embs with
  | nil =>
    cases embs with
    | nil => simp [mergeRecords]
    | cons e es => simp at h
  | cons m ms ih =>
    cases embs with
    | nil => simp at h
    | cons e es =>
      have hlen : ms.length = es.length := by
        simpa using h
      obtain ⟨h1, h2, h3, h4⟩ := ih es hlen
      simp [mergeRecords, mkRecord, List.zipWith_cons_cons] at *
      exact ⟨h1, h2, h3, h4⟩

/-- The merged record list of aligned inputs has their common length. -/
theorem mergeRecords_length (metas : List ChunkMeta) (embs : List (List Rat))
    (h : metas.length = embs.length) :
    (mergeRecords metas embs).length = metas.length := by
  simp [mergeRecords, List.length_zipWith, h]

/-- On aligned counts, the merge-and-write step returns the run
statistics. -/
theorem mergeAndWrite_snd (fs : FS) (passed : Nat) (metas : List ChunkMeta)
    (embs : List (List Rat)) (p : Bool) (h : metas.length = embs.length) :
    (mergeAndWrite fs passed metas embs p).2
      = .ok ⟨passed, metas.length, (mergeRecords metas embs).length⟩ := by
  simp [mergeAndWrite, h]

/-- Merge-and-write with pyarrow unavailable deletes the parquet
artifact. -/
theorem mergeAndWrite_parquet_unavailable (fs : FS) (passed : Nat)
    (metas : List ChunkMeta) (embs : List (List Rat))
    (h : metas.length = embs.length) :
    (mergeAndWrite fs passed metas embs false).1.parquet = none := by
  simp [mergeAndWrite, h]

/-- Merge-and-write with pyarrow unavailable writes the hint file. -/
theorem mergeAndWrite_hint_unavailable (fs : FS) (passed : Nat)
    (metas : List ChunkMeta) (embs : List (List Rat))
    (h : metas.length = embs.length) :
    (mergeAndWrite fs passed metas embs false).1.hint = true := by
  simp [mergeAndWrite, h]

/-- Merge-and-write with pyarrow available removes a leftover hint
file. -/
theorem mergeAndWrite_hint_available (fs : FS) (passed : Nat)
    (metas : List ChunkMeta) (embs : List (List Rat))
    (h : metas.length = embs.length) :
    (mergeAndWrite fs passed metas embs true).1.hint = false := by
  simp [mergeAndWrite, h]

/-- The report writer leaves the parquet artifact untouched. -/
theorem write_report_parquet (fs : FS) (gewebe : String) (stats : Stats) :
    (write_report fs gewebe stats).parquet = fs.parquet :=
  rfl

/-- The report writer leaves the hint file untouched. -/
theorem write_report_hint (fs : FS) (gewebe : String) (stats : Stats) :
    (write_report fs gewebe stats).hint = fs.hint :=
  rfl

/-- When no parquet file exists, the written report contains the line
stating the columnar artifact was skipped. -/
theorem write_report_skipLine (fs : FS) (gewebe : String) (stats : Stats)
    (h : fs.parquet = none) :
    ∃ lines, (write_report fs gewebe stats).report = some lines
      ∧ ("Parquet-Artefakt: (Übersprungen oder Fehler)") ∈ lines := by
  refine ⟨_, rfl, ?_⟩
  simp [write_report, h]

/-- A run whose embed step succeeds reduces to merge-and-write followed
by the report. -/
theorem run_split (fs : FS) (gewebe nspace : String)
    (chunks : List ChunkInput) (embedder : OllamaEmbedder)
    (outcome : ProviderOutcome) (p : Bool) (embs : List (List Rat))
    (hok : (embedder.embed outcome
        ((chunkMetas nspace chunks).map (fun m => m.text))).result
      = .ok embs) :
    run fs gewebe nspace chunks embedder outcome p
      = (write_report
          (mergeAndWrite fs chunks.length (chunkMetas nspace chunks) embs
            p).1
          gewebe
          ⟨chunks.length, (chunkMetas nspace chunks).length,
            (mergeRecords (chunkMetas nspace chunks) embs).length⟩,
        .ok ⟨chunks.length, (chunkMetas nspace chunks).length,
          (mergeRecords (chunkMetas nspace chunks) embs).length⟩) := by
  have hlen : embs.length = (chunkMetas nspace chunks).length := by
    simpa using embed_ok_length _ _ _ _ hok
  have hw : write_embeddings fs nspace chunks embedder outcome p
      = mergeAndWrite fs chunks.length (chunkMetas nspace chunks) embs p := by
    simp only [write_embeddings, hok]
  have hsnd := mergeAndWrite_snd fs chunks.length (chunkMetas nspace chunks)
    embs p hlen.symm
  simp only [run, hw]
  cases hM : mergeAndWrite fs chunks.length (chunkMetas nspace chunks) embs p
    with
  | mk fs1 r =>
    rw [hM] at hsnd
    simp only [] at hsnd
    subst hsnd
    rfl

/-! ## Claims -/

/-- C1: For every non-empty list of texts on which the embedding
client's embed operation returns successfully (no error raised, degrade
mode off), the returned list of vectors has the same length as the
input list of texts. -/
theorem spec_C1 (e : OllamaEmbedder) (outcome : ProviderOutcome)
    (texts : List String) (embs : List (List Rat))
    (_hne : texts ≠ []) (_hmode : e.allow_empty = false)
    (hok : (e.embed outcome texts).result = .ok embs) :
    embs.length = texts.length :=
  embed_ok_length e outcome texts embs hok

theorem spec_C1_witness :
    (["hello"] : List String) ≠ []
      ∧ (⟨("u"), ("m"), false⟩ : OllamaEmbedder).allow_empty = false
      ∧ ([[1, 2]] : List (List Rat)).length
          = (["hello"] : List String).length :=
  ⟨by decide, rfl,
    spec_C1 ⟨("u"), ("m"), false⟩ (.success ⟨.isList [[1, 2]]⟩)
      (["hello"]) ([[1, 2]]) (by decide) rfl rfl⟩

/-- C2: When the number of chunk-metadata records differs from the
number of embeddings, the merge-and-write step fails with the
data-integrity error naming both counts, and the filesystem is
unchanged: no columnar artifact and no manifest is written by that
call. -/
theorem spec_C2 (fs : FS) (passed : Nat) (metas : List ChunkMeta)
    (embs : List (List Rat)) (pyarrowAvailable : Bool)
    (h : metas.length ≠ embs.length) :
    mergeAndWrite fs passed metas embs pyarrowAvailable
      = (fs, .error (.dataIntegrity metas.length embs.length)) := by
  simp [mergeAndWrite, h]

theorem spec_C2_witness :
    ([⟨("a"), ("a.md"), ("d"), ("x")⟩, ⟨("b"), ("b.md"), ("d"), ("y")⟩,
        ⟨("c"), ("c.md"), ("d"), ("z")⟩] : List ChunkMeta).length
        ≠ ([[1], [2]] : List (List Rat)).length
      ∧ mergeAndWrite emptyFS 3
          [⟨("a"), ("a.md"), ("d"), ("x")⟩, ⟨("b"), ("b.md"), ("d"), ("y")⟩,
            ⟨("c"), ("c.md"), ("d"), ("z")⟩]
          [[1], [2]] true
        = (emptyFS, .error (.dataIntegrity 3 2)) :=
  ⟨by decide,
    spec_C2 emptyFS 3
      [⟨("a"), ("a.md"), ("d"), ("x")⟩, ⟨("b"), ("b.md"), ("d"), ("y")⟩,
        ⟨("c"), ("c.md"), ("d"), ("z")⟩]
      [[1], [2]] true (by decide)⟩

/-- C3: For every list of N aligned (chunk-metadata, embedding) pairs,
writing the manifest and then parsing the manifest back yields exactly
N records whose chunk_id, source, text and embedding fields equal the
corresponding inputs, in the same order. -/
theorem spec_C3 (metas : List ChunkMeta) (embs : List (List Rat))
    (h : metas.length = embs.length) :
    ∃ rs, parseManifest (manifestJson (mergeRecords metas embs)) = some rs
      ∧ rs.length = metas.length
      ∧ rs.map (fun r => r.chunk_id) = metas.map (fun m => m.chunk_id)
      ∧ rs.map (fun r => r.source) = metas.map (fun m => m.source)
      ∧ rs.map (fun r => r.text) = metas.map (fun m => m.text)
      ∧ rs.map (fun r => r.embedding) = embs := by
  obtain ⟨h1, h2, h3, h4⟩ := mergeRecords_fields metas embs h
  exact ⟨mergeRecords metas embs, parseManifest_manifestJson _,
    mergeRecords_length metas embs h, h1, h2, h3, h4⟩

theorem spec_C3_witness :
    ([⟨("a"), ("a.md"), ("d"), ("hello")⟩,
        ⟨("b"), ("b.md"), ("d"), ("world")⟩] : List ChunkMeta).length
        = ([[1, 2], [3, 4]] : List (List Rat)).length
      ∧ ∃ rs,
        parseManifest (manifestJson (mergeRecords
            [⟨("a"), ("a.md"), ("d"), ("hello")⟩,
              ⟨("b"), ("b.md"), ("d"), ("world")⟩]
            [[1, 2], [3, 4]])) = some rs
        ∧ rs.length = ([⟨("a"), ("a.md"), ("d"), ("hello")⟩,
            ⟨("b"), ("b.md"), ("d"), ("world")⟩] : List ChunkMeta).length
        ∧ rs.map (fun r => r.chunk_id)
          = ([⟨("a"), ("a.md"), ("d"), ("hello")⟩,
              ⟨("b"), ("b.md"), ("d"), ("world")⟩] : List ChunkMeta).map
              (fun m => m.chunk_id)
        ∧ rs.map (fun r => r.source)
          = ([⟨("a"), ("a.md"), ("d"), ("hello")⟩,
              ⟨("b"), ("b.md"), ("d"), ("world")⟩] : List ChunkMeta).map
              (fun m => m.source)
        ∧ rs.map (fun r => r.text)
          = ([⟨("a"), ("a.md"), ("d"), ("hello")⟩,
              ⟨("b"), ("b.md"), ("d"), ("world")⟩] : List ChunkMeta).map
              (fun m => m.text)
        ∧ rs.map (fun r => r.embedding) = [[1, 2], [3, 4]] :=
  ⟨by decide,
    spec_C3 [⟨("a"), ("a.md"), ("d"), ("hello")⟩,
        ⟨("b"), ("b.md"), ("d"), ("world")⟩]
      [[1, 2], [3, 4]] (by decide)⟩

/-- C5: For every non-empty input where the provider returns a number
of vectors different from the number of input texts: with degrade mode
off the embed operation fails with the count-mismatch error; with
degrade mode on it warns and returns exactly one empty vector per input
text. -/
theorem spec_C5 (url model : String) (texts : List String)
    (embs : List (List Rat)) (hne : texts ≠ [])
    (hmm : embs.length ≠ texts.length) :
    (OllamaEmbedder.embed ⟨url, model, false⟩
        (.success ⟨.isList embs⟩) texts).result
      = .error ⟨url, model, .countMismatch embs.length texts.length⟩
    ∧ (OllamaEmbedder.embed ⟨url, model, true⟩
        (.success ⟨.isList embs⟩) texts).result
      = .ok (texts.map (fun _ => []))
    ∧ (OllamaEmbedder.embed ⟨url, model, true⟩
        (.success ⟨.isList embs⟩) texts).warned = true
    ∧ (texts.map (fun _ => ([] : List Rat))).length = texts.length := by
  have he : texts.isEmpty = false := by
    simpa [List.isEmpty_iff] using hne
  refine ⟨?_, ?_, ?_, by simp⟩ <;>
    simp [OllamaEmbedder.embed, rawEmbed, he, hmm]

theorem spec_C5_witness :
    (["hello"] : List String) ≠ []
      ∧ ([[1], [2]] : List (List Rat)).length
          ≠ (["hello"] : List String).length
      ∧ ((OllamaEmbedder.embed ⟨("u"), ("m"), false⟩
          (.success ⟨.isList [[1], [2]]⟩) (["hello"])).result
        = .error ⟨("u"), ("m"), .countMismatch 2 1⟩
      ∧ (OllamaEmbedder.embed ⟨("u"), ("m"), true⟩
          (.success ⟨.isList [[1], [2]]⟩) (["hello"])).result
        = .ok ((["hello"] : List String).map (fun _ => []))
      ∧ (OllamaEmbedder.embed ⟨("u"), ("m"), true⟩
          (.success ⟨.isList [[1], [2]]⟩) (["hello"])).warned = true
      ∧ ((["hello"] : List String).map (fun _ => ([] : List Rat))).length
        = (["hello"] : List String).length) :=
  ⟨by decide, by decide,
    spec_C5 ("u") ("m") (["hello"]) [[1], [2]] (by decide) (by decide)⟩

/-- C7: The embed operation applied to an empty list of texts returns
an empty list and issues no provider request, in both degrade-mode
settings (quantified over every client configuration). -/
theorem spec_C7 (e : OllamaEmbedder) (outcome : ProviderOutcome) :
    (e.embed outcome []).result = .ok []
      ∧ (e.embed outcome []).requests = 0 :=
  ⟨rfl, rfl⟩

/-- C8: For every non-empty input where the provider response lacks the
embeddings field or that field is not a sequence, the embed operation
(degrade mode off) fails with the format error, a cause distinct from
the transport/decoding causes that make up the provider-error
channel. -/
theorem spec_C8 (url model : String) (texts : List String)
    (resp : ProviderResponse) (hne : texts ≠ [])
    (hbad : resp.embeddings = .missing ∨ resp.embeddings = .notList) :
    ∃ err : EmbedError,
      (OllamaEmbedder.embed ⟨url, model, false⟩ (.success resp) texts).result
        = .error err
      ∧ err.cause = .formatInvalid
      ∧ err.cause.isProviderFailure = false := by
  have he : texts.isEmpty = false := by
    simpa [List.isEmpty_iff] using hne
  refine ⟨⟨url, model, .formatInvalid⟩, ?_, rfl, rfl⟩
  rcases hbad with hb | hb <;>
    simp [OllamaEmbedder.embed, rawEmbed, he, hb]

theorem spec_C8_witness :
    (["hello"] : List String) ≠ []
      ∧ (⟨.missing⟩ : ProviderResponse).embeddings = .missing
      ∧ ∃ err : EmbedError,
        (OllamaEmbedder.embed ⟨("u"), ("m"), false⟩
            (.success ⟨.missing⟩) (["hello"])).result
          = .error err
        ∧ err.cause = .formatInvalid
        ∧ err.cause.isProviderFailure = false :=
  ⟨by decide, rfl,
    spec_C8 ("u") ("m") (["hello"]) ⟨.missing⟩ (by decide) (Or.inl rfl)⟩

/-- C4: On a run whose embed step succeeds but the columnar engine is
unavailable, the run still succeeds, no columnar file exists afterwards
(a pre-existing one is deleted), the hint file exists, and the report
states the columnar artifact was skipped; conversely, when the columnar
write succeeds, any previously written hint file is removed. -/
theorem spec_C4 (fs : FS) (gewebe nspace : String) (chunks : List ChunkInput)
    (embedder : OllamaEmbedder) (outcome : ProviderOutcome)
    (embs : List (List Rat))
    (hok : (embedder.embed outcome
        ((chunkMetas nspace chunks).map (fun m => m.text))).result
      = .ok embs) :
    ((∃ stats, (run fs gewebe nspace chunks embedder outcome false).2
        = .ok stats)
      ∧ (run fs gewebe nspace chunks embedder outcome false).1.parquet = none
      ∧ (run fs gewebe nspace chunks embedder outcome false).1.hint = true
      ∧ ∃ lines,
          (run fs gewebe nspace chunks embedder outcome false).1.report
            = some lines
          ∧ ("Parquet-Artefakt: (Übersprungen oder Fehler)") ∈ lines)
    ∧ (run fs gewebe nspace chunks embedder outcome true).1.hint = false := by
  have hlen : embs.length = (chunkMetas nspace chunks).length := by
    simpa using embed_ok_length _ _ _ _ hok
  have hr0 := run_split fs gewebe nspace chunks embedder outcome false embs hok
  have hr1 := run_split fs gewebe nspace chunks embedder outcome true embs hok
  refine ⟨⟨?_, ?_, ?_, ?_⟩, ?_⟩
  · exact ⟨⟨chunks.length, (chunkMetas nspace chunks).length,
      (mergeRecords (chunkMetas nspace chunks) embs).length⟩, by rw [hr0]⟩
  · rw [hr0]
    show (write_report _ _ _).parquet = none
    rw [write_report_parquet]
    exact mergeAndWrite_parquet_unavailable fs chunks.length _ embs hlen.symm
  · rw [hr0]
    show (write_report _ _ _).hint = true
    rw [write_report_hint]
    exact mergeAndWrite_hint_unavailable fs chunks.length _ embs hlen.symm
  · rw [hr0]
    exact write_report_skipLine _ gewebe _
      (mergeAndWrite_parquet_unavailable fs chunks.length _ embs hlen.symm)
  · rw [hr1]
    show (write_report _ _ _).hint = false
    rw [write_report_hint]
    exact mergeAndWrite_hint_available fs chunks.length _ embs hlen.symm

theorem spec_C4_witness :
    ((OllamaEmbedder.embed ⟨("u"), ("m"), false⟩
        (.success ⟨.isList [[1]]⟩)
        ((chunkMetas ("default")
          [⟨("a.md"), Except.ok ("hi")⟩]).map (fun m => m.text))).result
      = .ok [[1]])
    ∧ (((∃ stats, (run emptyFS ("g") ("default")
          [⟨("a.md"), Except.ok ("hi")⟩] ⟨("u"), ("m"), false⟩
          (.success ⟨.isList [[1]]⟩) false).2 = .ok stats)
      ∧ (run emptyFS ("g") ("default") [⟨("a.md"), Except.ok ("hi")⟩]
          ⟨("u"), ("m"), false⟩ (.success ⟨.isList [[1]]⟩) false).1.parquet
        = none
      ∧ (run emptyFS ("g") ("default") [⟨("a.md"), Except.ok ("hi")⟩]
          ⟨("u"), ("m"), false⟩ (.success ⟨.isList [[1]]⟩) false).1.hint
        = true
      ∧ ∃ lines,
          (run emptyFS ("g") ("default") [⟨("a.md"), Except.ok ("hi")⟩]
            ⟨("u"), ("m"), false⟩ (.success ⟨.isList [[1]]⟩) false).1.report
            = some lines
          ∧ ("Parquet-Artefakt: (Übersprungen oder Fehler)") ∈ lines)
    ∧ (run emptyFS ("g") ("default") [⟨("a.md"), Except.ok ("hi")⟩]
        ⟨("u"), ("m"), false⟩ (.success ⟨.isList [[1]]⟩) true).1.hint
      = false) :=
  ⟨rfl,
    spec_C4 emptyFS ("g") ("default") [⟨("a.md"), Except.ok ("hi")⟩]
      ⟨("u"), ("m"), false⟩ (.success ⟨.isList [[1]]⟩) [[1]] rfl⟩

/-- C6: When some chunk paths fail to read, the failing paths are
excluded from the produced metadata sequence, the run continues and
(provided the embed step succeeds) exits successfully, and the
statistics satisfy passed = number of requested paths and read = number
of successfully read paths, with the manifest holding exactly read
records. -/
theorem spec_C6 (fs : FS) (nspace : String) (chunks : List ChunkInput)
    (embedder : OllamaEmbedder) (outcome : ProviderOutcome)
    (pyarrowAvailable : Bool) (embs : List (List Rat))
    (hok : (embedder.embed outcome
        ((chunkMetas nspace chunks).map (fun m => m.text))).result
      = .ok embs) :
    (write_embeddings fs nspace chunks embedder outcome pyarrowAvailable).2
        = .ok ⟨chunks.length, (chunks.filter ChunkInput.readOk).length,
            (chunks.filter ChunkInput.readOk).length⟩
      ∧ (chunkMetas nspace chunks).map (fun m => m.source)
        = (chunks.filter ChunkInput.readOk).map (fun c => c.path)
      ∧ ∃ rs,
        (write_embeddings fs nspace chunks embedder outcome
            pyarrowAvailable).1.manifest = some (manifestJson rs)
        ∧ rs.length = (chunks.filter ChunkInput.readOk).length := by
  have hlen : embs.length = (chunkMetas nspace chunks).length := by
    simpa using embed_ok_length _ _ _ _ hok
  have hcond : ¬((chunkMetas nspace chunks).length ≠ embs.length) := by
    omega
  have hw : write_embeddings fs nspace chunks embedder outcome pyarrowAvailable
      = mergeAndWrite fs chunks.length (chunkMetas nspace chunks) embs
          pyarrowAvailable := by
    simp only [write_embeddings, hok]
  rw [hw]
  simp only [mergeAndWrite, if_neg hcond]
  refine ⟨?_, chunkMetas_sources nspace chunks,
    ⟨mergeRecords (chunkMetas nspace chunks) embs, by simp, ?_⟩⟩
  · rw [mergeRecords_length _ _ hlen.symm, chunkMetas_length]
  · rw [mergeRecords_length _ _ hlen.symm, chunkMetas_length]

theorem spec_C6_witness :
    ((OllamaEmbedder.embed ⟨("u"), ("m"), false⟩
        (.success ⟨.isList [[1]]⟩)
        ((chunkMetas ("default")
          [⟨("a.md"), Except.ok ("hello")⟩,
           ⟨("b.md"), Except.error ("No such file or directory")⟩]).map
          (fun m => m.text))).result
      = .ok [[1]])
    ∧ ((write_embeddings emptyFS ("default")
          [⟨("a.md"), Except.ok ("hello")⟩,
           ⟨("b.md"), Except.error ("No such file or directory")⟩]
          ⟨("u"), ("m"), false⟩ (.success ⟨.isList [[1]]⟩) true).2
        = .ok ⟨([⟨("a.md"), Except.ok ("hello")⟩,
            ⟨("b.md"), Except.error ("No such file or directory")⟩] :
              List ChunkInput).length,
            (([⟨("a.md"), Except.ok ("hello")⟩,
              ⟨("b.md"), Except.error ("No such file or directory")⟩] :
                List ChunkInput).filter ChunkInput.readOk).length,
            (([⟨("a.md"), Except.ok ("hello")⟩,
              ⟨("b.md"), Except.error ("No such file or directory")⟩] :
                List ChunkInput).filter ChunkInput.readOk).length⟩
      ∧ (chunkMetas ("default")
          [⟨("a.md"), Except.ok ("hello")⟩,
           ⟨("b.md"), Except.error ("No such file or directory")⟩]).map
          (fun m => m.source)
        = (([⟨("a.md"), Except.ok ("hello")⟩,
            ⟨("b.md"), Except.error ("No such file or directory")⟩] :
              List ChunkInput).filter ChunkInput.readOk).map
            (fun c => c.path)
      ∧ ∃ rs,
        (write_embeddings emptyFS ("default")
            [⟨("a.md"), Except.ok ("hello")⟩,
             ⟨("b.md"), Except.error ("No such file or directory")⟩]
            ⟨("u"), ("m"), false⟩ (.success ⟨.isList [[1]]⟩) true).1.manifest
          = some (manifestJson rs)
        ∧ rs.length = (([⟨("a.md"), Except.ok ("hello")⟩,
            ⟨("b.md"), Except.error ("No such file or directory")⟩] :
              List ChunkInput).filter ChunkInput.readOk).length) :=
  ⟨rfl,
    spec_C6 emptyFS ("default")
      [⟨("a.md"), Except.ok ("hello")⟩,
       ⟨("b.md"), Except.error ("No such file or directory")⟩]
      ⟨("u"), ("m"), false⟩ (.success ⟨.isList [[1]]⟩) true [[1]] rfl⟩

/-- C10: Every run of the index writer that returns statistics (does
not raise) satisfies embedded = read and read ≤ passed, under every
configuration including degrade mode. -/
theorem spec_C10 (fs : FS) (nspace : String) (chunks : List ChunkInput)
    (embedder : OllamaEmbedder) (outcome : ProviderOutcome)
    (pyarrowAvailable : Bool) (fs2 : FS) (stats : Stats)
    (h : write_embeddings fs nspace chunks embedder outcome pyarrowAvailable
      = (fs2, .ok stats)) :
    stats.embedded = stats.read ∧ stats.read ≤ stats.passed := by
  simp only [write_embeddings] at h
  split at h
  · simp at h
  · rename_i embs heq
    have hlen : embs.length = (chunkMetas nspace chunks).length := by
      simpa using embed_ok_length _ _ _ _ heq
    have hcond : ¬((chunkMetas nspace chunks).length ≠ embs.length) := by
      omega
    simp only [mergeAndWrite, if_neg hcond] at h
    have hstats := congrArg Prod.snd h
    simp only [] at hstats
    cases hstats
    refine ⟨?_, ?_⟩
    · simp [mergeRecords_length _ _ hlen.symm]
    · simpa using chunkMetas_length_le nspace chunks

theorem spec_C10_witness :
    write_embeddings emptyFS ("d") [] ⟨("u"), ("m"), false⟩
        (.success ⟨.isList []⟩) true
      = (⟨some [], false, some (manifestJson []), none⟩, .ok ⟨0, 0, 0⟩)
    ∧ ((⟨0, 0, 0⟩ : Stats).embedded = (⟨0, 0, 0⟩ : Stats).read
      ∧ (⟨0, 0, 0⟩ : Stats).read ≤ (⟨0, 0, 0⟩ : Stats).passed) :=
  ⟨rfl,
    spec_C10 emptyFS ("d") [] ⟨("u"), ("m"), false⟩
      (.success ⟨.isList []⟩) true
      ⟨some [], false, some (manifestJson []), none⟩ ⟨0, 0, 0⟩ rfl⟩

/-- C9: The run given chunk files a.md containing hello and b.md
containing world, with a provider returning the vectors [1,2] and [3,4]
for model nomic-embed-text, writes a manifest of exactly two records
with chunk_id a and b and those embeddings in that order, and a report
showing passed=2, read=2, embedded=2. -/
theorem spec_C9 :
    (run emptyFS ("/idx/default/.gewebe") ("default")
        [⟨("a.md"), Except.ok ("hello")⟩, ⟨("b.md"), Except.ok ("world")⟩]
        ⟨("http://127.0.0.1:11434"), ("nomic-embed-text"), false⟩
        (.success ⟨.isList [[1, 2], [3, 4]]⟩) true).2
      = .ok ⟨2, 2, 2⟩
    ∧ (run emptyFS ("/idx/default/.gewebe") ("default")
        [⟨("a.md"), Except.ok ("hello")⟩, ⟨("b.md"), Except.ok ("world")⟩]
        ⟨("http://127.0.0.1:11434"), ("nomic-embed-text"), false⟩
        (.success ⟨.isList [[1, 2], [3, 4]]⟩) true).1.manifest
      = some (manifestJson
          [⟨("a"), ("a.md"), ("default"), ("hello"), [1, 2]⟩,
           ⟨("b"), ("b.md"), ("default"), ("world"), [3, 4]⟩])
    ∧ (run emptyFS ("/idx/default/.gewebe") ("default")
        [⟨("a.md"), Except.ok ("hello")⟩, ⟨("b.md"), Except.ok ("world")⟩]
        ⟨("http://127.0.0.1:11434"), ("nomic-embed-text"), false⟩
        (.success ⟨.isList [[1, 2], [3, 4]]⟩) true).1.report
      = some [("# semantAH Index Report"),
          (""),
          ("- Chunks übergeben: 2"),
          ("- Chunks gelesen: 2"),
          ("- Embeddings erzeugt: 2"),
          ("Parquet-Artefakt: /idx/default/.gewebe/embeddings.parquet"),
          ("Manifest: /idx/default/.gewebe/chunks.json")] :=
  ⟨rfl, rfl, rfl⟩
